import Mathlib

/-!
Shallow embedding of the multi-threaded compression orchestrator
(`src/lib/compress/zstdmt_compress.c`) and proofs about its claims.

Modelling conventions:
* C machine integers (`size_t`, `unsigned`, `unsigned long long`) are `Nat`,
  with an explicit `% 2 ^ w` at the places where the C code truncates
  (casts, potential overflow).
* Pointers are modelled by presence flags (`Bool`): the code never reads
  byte contents that matter to the claims, only whether a buffer is present
  and how many bytes it holds.
* Fallible C paths returning an error sentinel are modelled with
  `Except ZErr`.
* External collaborators (inner compressor, thread pool, hash) appear as
  abstract events or environment parameters; constants taken from the
  public headers (not part of this repository's single source file) are
  defined separately and marked as modelled.
-/

/-- Error kinds used by the orchestrator (the C code encodes these as
`size_t` sentinels via the `ERROR(...)` macro). -/
inductive ZErr where
  | memory_allocation
  | dstSize_tooSmall
  | stage_wrong
  | parameter_unsupported
  | dictionary_wrong
deriving DecidableEq, Repr

/- =====   Buffer Pool   ===== -/

/-- Result of `ZSTDMT_getBuffer`, distinguishing the three return paths of
the source: the popped cached buffer, a freshly malloc'ed buffer of the
pool's current target size, or the null buffer `{NULL, 0}` when malloc
fails. -/
inductive AcquiredBuffer where
  | cached (size : Nat)
  | fresh (size : Nat)
  | nullBuffer
deriving DecidableEq, Repr

/-- Buffer-pool state: the current target size `bufferSize` and the stack of
cached buffers `bTable` (head = most recently released = the entry popped by
`bTable[--nbBuffers]`).  Buffers are represented by their sizes, the only
field the acquire logic inspects. -/
structure BufferPoolState where
  bufferSize : Nat
  bTable : List Nat
deriving DecidableEq, Repr

/-- Embedding of `ZSTDMT_getBuffer` (zstdmt_compress.c:157-191).
`allocOK` models whether the `ZSTD_malloc` call inside succeeds.
Returns the acquired buffer together with the updated pool state. -/
def ZSTDMT_getBuffer (bufPool : BufferPoolState) (allocOK : Bool) :
    AcquiredBuffer × BufferPoolState :=
  let bSize := bufPool.bufferSize
  let freshAlloc : AcquiredBuffer :=
    if allocOK then AcquiredBuffer.fresh bSize else AcquiredBuffer.nullBuffer
  match bufPool.bTable with
  | [] => (freshAlloc, bufPool)
  | availBufferSize :: rest =>
      if availBufferSize ≥ bSize ∧ availBufferSize >>> 3 ≤ bSize then
        -- large enough, but not too much
        (AcquiredBuffer.cached availBufferSize, { bufPool with bTable := rest })
      else
        -- size conditions not respected : scratch this buffer, create new one
        (freshAlloc, { bufPool with bTable := rest })

/-- Embedding of `ZSTDMT_releaseBuffer` (zstdmt_compress.c:194-210).
`bufPresent = false` models the release-on-NULL no-op; `totalBuffers` is the
pool capacity `2*nbThreads+3`. -/
def ZSTDMT_releaseBuffer (bufPool : BufferPoolState) (totalBuffers : Nat)
    (bufPresent : Bool) (bufSize : Nat) : BufferPoolState :=
  if !bufPresent then bufPool
  else if bufPool.bTable.length < totalBuffers then
    { bufPool with bTable := bufSize :: bufPool.bTable }
  else bufPool

/- =====   One-shot partitioning arithmetic   ===== -/

/-- Embedding of `ZSTDMT_computeNbChunks` (zstdmt_compress.c:700-710).
`size_t` values are truncated `% 2^64` and `unsigned` casts `% 2^32`,
exactly where the C code truncates. -/
def ZSTDMT_computeNbChunks (srcSize windowLog nbThreads : Nat) : Nat :=
  let chunkSizeTarget := (1 <<< (windowLog + 2)) % 2 ^ 64
  let chunkMaxSize := (chunkSizeTarget <<< 2) % 2 ^ 64
  let passSizeMax := (chunkMaxSize * nbThreads) % 2 ^ 64
  let multiplier := (srcSize / passSizeMax) % 2 ^ 32 + 1
  let nbChunksLarge := (multiplier * nbThreads) % 2 ^ 32
  let nbChunksMax := (srcSize / chunkSizeTarget) % 2 ^ 32 + 1
  let nbChunksSmall := min nbChunksMax nbThreads
  if multiplier > 1 then nbChunksLarge else nbChunksSmall

/-- Embedding of `proposedChunkSize` (zstdmt_compress.c:726):
`(srcSize + (nbChunks-1)) / nbChunks`. -/
def proposedChunkSize (srcSize nbChunks : Nat) : Nat :=
  (srcSize + (nbChunks - 1)) / nbChunks

/-- Embedding of `avgChunkSize` (zstdmt_compress.c:727): the proposed chunk
size, raised by `0xFFFF` when `((proposedChunkSize-1) & 0x1FFFF) < 0x7FFF`
("avoid too small last block"). The subtraction is performed in `size_t`,
so it wraps: `proposedChunkSize - 1` is modelled as
`(proposedChunkSize + (2^64 - 1)) % 2^64`, which at `proposedChunkSize = 0`
(i.e. `srcSize = 0`) yields `2^64 - 1`, whose low 17 bits are `0x1FFFF`. -/
def avgChunkSize (srcSize nbChunks : Nat) : Nat :=
  let p := proposedChunkSize srcSize nbChunks
  if (p + (2 ^ 64 - 1)) % 2 ^ 64 &&& 0x1FFFF < 0x7FFF then p + 0xFFFF else p

/-- The adjustment rule as the spec sentence behind claim C2 words it:
adjusted upward by `0x10000` exactly when `((avg-1) & 0x1FFFF) ≥ 0x7FFF`.
Stated only to be compared with `avgChunkSize`, the definition taken from
the source. -/
def avgChunkSizeClaim (srcSize nbChunks : Nat) : Nat :=
  let p := proposedChunkSize srcSize nbChunks
  if (p - 1) &&& 0x1FFFF ≥ 0x7FFF then p + 0x10000 else p

/- =====   Worker: per-job compressor-call trace   ===== -/

/-- Modelled from the spec: `ZSTD_BLOCKSIZE_MAX`, the inner compression
unit bound ("Block — inner compression unit, at most BLOCK_MAX uncompressed
bytes"; 128 KiB in the public header, which is not part of this
repository's source file). -/
def ZSTD_BLOCKSIZE_MAX : Nat := 131072

/-- One call made by the worker into the external single-section
compressor, carrying the number of source bytes fed to that call. -/
inductive CompressorCall where
  | compressContinue (srcSize : Nat)
  | compressEnd (srcSize : Nat)
deriving DecidableEq, Repr

/-- Embedding of the compression pipeline of `ZSTDMT_compressChunk`
(zstdmt_compress.c:372-422) as the trace of calls into the inner
compressor, in order: the header-flush `ZSTD_compressContinue(.., src, 0)`
when not first chunk, then `nbBlocks-1` full-block continues, then the last
block (via `ZSTD_compressEnd` iff last chunk) whose size is
`srcSize & (BLOCKSIZE_MAX-1)`, replaced by a full `BLOCKSIZE_MAX` when that
masked value is 0 and `srcSize ≥ BLOCKSIZE_MAX`.  The mask
`& (ZSTD_BLOCKSIZE_MAX-1)` is written `% ZSTD_BLOCKSIZE_MAX`
(`ZSTD_BLOCKSIZE_MAX = 2^17`). -/
def ZSTDMT_compressChunk_calls (srcSize : Nat) (firstChunk lastChunk : Bool) :
    List CompressorCall :=
  let headerCalls : List CompressorCall :=
    if firstChunk then [] else [CompressorCall.compressContinue 0]
  let nbBlocks := (srcSize + (ZSTD_BLOCKSIZE_MAX - 1)) / ZSTD_BLOCKSIZE_MAX
  let fullBlockCalls :=
    List.replicate (nbBlocks - 1) (CompressorCall.compressContinue ZSTD_BLOCKSIZE_MAX)
  let lastCalls : List CompressorCall :=
    if nbBlocks > 0 ∨ lastChunk then
      let lastBlockSize1 := srcSize % ZSTD_BLOCKSIZE_MAX
      let lastBlockSize :=
        if lastBlockSize1 = 0 ∧ srcSize ≥ ZSTD_BLOCKSIZE_MAX then ZSTD_BLOCKSIZE_MAX
        else lastBlockSize1
      [if lastChunk then CompressorCall.compressEnd lastBlockSize
       else CompressorCall.compressContinue lastBlockSize]
    else []
  headerCalls ++ fullBlockCalls ++ lastCalls

/- =====   Parameter helpers   ===== -/

/-- `ZSTDMT_NBTHREADS_MAX` (zstdmt_compress.c:13). -/
def ZSTDMT_NBTHREADS_MAX : Nat := 200

/-- `ZSTDMT_OVERLAPLOG_DEFAULT` (zstdmt_compress.c:15). -/
def ZSTDMT_OVERLAPLOG_DEFAULT : Nat := 6

/-- The fields of `ZSTD_CCtx_params` that the orchestrator reads or
writes; `checksumFlag` and `contentSizeFlag` stand for
`fParams.checksumFlag` / `fParams.contentSizeFlag`. -/
structure CCtxParams where
  nbThreads : Nat
  overlapSizeLog : Nat
  jobSize : Nat
  compressionLevel : Nat
  windowLog : Nat
  checksumFlag : Bool
  contentSizeFlag : Bool
deriving DecidableEq, Repr

/-- Embedding of `ZSTDMT_CCtxParam_setNbThreads` (zstdmt_compress.c:503-511):
clamps the requested count into `[1, ZSTDMT_NBTHREADS_MAX]`, stores it, and
also resets `overlapSizeLog` to the default and `jobSize` to 0.  Returns the
updated params together with the function's return value. -/
def ZSTDMT_CCtxParam_setNbThreads (params : CCtxParams) (nbThreads : Nat) :
    CCtxParams × Nat :=
  let nbThreads1 := if nbThreads > ZSTDMT_NBTHREADS_MAX then ZSTDMT_NBTHREADS_MAX else nbThreads
  let nbThreads2 := if nbThreads1 < 1 then 1 else nbThreads1
  ({ params with
      nbThreads := nbThreads2
      overlapSizeLog := ZSTDMT_OVERLAPLOG_DEFAULT
      jobSize := 0 },
   nbThreads2)

/- =====   resetCStream   ===== -/

/-- Modelled from the spec: `ZSTD_CONTENTSIZE_UNKNOWN`, the sentinel for an
unknown pledged content size; `(0ULL - 1)` = `2^64 - 1` in the public
header, which is not part of this repository's source file. -/
def ZSTD_CONTENTSIZE_UNKNOWN : Nat := 2 ^ 64 - 1

/-- The re-initialization performed by `ZSTDMT_resetCStream`: either the
single-thread `ZSTD_resetCStream` delegate or `ZSTDMT_initCStream_internal`,
each carrying the pledged source size actually forwarded. -/
inductive ResetTarget where
  | singleThreadReset (pledgedSrcSize : Nat)
  | multiThreadInit (pledgedSrcSize : Nat)
deriving DecidableEq, Repr

/-- The pledged size carried by a `ResetTarget`. -/
def ResetTarget.pledged : ResetTarget → Nat
  | ResetTarget.singleThreadReset p => p
  | ResetTarget.multiThreadInit p => p

/-- Embedding of `ZSTDMT_resetCStream` (zstdmt_compress.c:983-990): a zero
`pledgedSrcSize` is replaced by `ZSTD_CONTENTSIZE_UNKNOWN`, then the call is
routed to the single-thread path when `params.nbThreads == 1`, else to
`ZSTDMT_initCStream_internal`. -/
def ZSTDMT_resetCStream (nbThreads pledgedSrcSize : Nat) : ResetTarget :=
  let pledged := if pledgedSrcSize = 0 then ZSTD_CONTENTSIZE_UNKNOWN else pledgedSrcSize
  if nbThreads = 1 then ResetTarget.singleThreadReset pledged
  else ResetTarget.multiThreadInit pledged

/- =====   Streaming orchestrator state   ===== -/

/-- The fields of `ZSTDMT_jobDescription` (zstdmt_compress.c:306-326) that
the claims inspect.  `cErr` models the error sentinel that the C code packs
into `cSize`; `dstBuffPresent` / `srcBuffPresent` model `dstBuff.start` /
`src.start` being non-NULL; `checksumFlag` stands for
`params.fParams.checksumFlag` of the job's own parameter copy. -/
structure JobDesc where
  srcSize : Nat := 0
  prefixSize : Nat := 0
  consumed : Nat := 0
  cSize : Nat := 0
  cErr : Option ZErr := none
  dstFlushed : Nat := 0
  srcBuffPresent : Bool := false
  dstBuffPresent : Bool := false
  firstChunk : Bool := false
  lastChunk : Bool := false
  jobCompleted : Bool := false
  frameChecksumNeeded : Bool := false
  checksumFlag : Bool := false
deriving DecidableEq, Repr

/-- The all-zero job record produced by `calloc` of the job table and by
`memset` in `ZSTDMT_releaseAllJobResources`. -/
def emptyJob : JobDesc := {}

/-- Streaming-mode state of `ZSTDMT_CCtx_s` (zstdmt_compress.c:448-475),
restricted to the fields the claims are about.  `jobs` is indexed by the
absolute job ID; the C code stores job `n` in ring slot
`n & jobIDMask`, so this indexing is faithful exactly when distinct
in-flight IDs never collide on a slot — which is part of what claim C4
establishes (`nextJobID - doneJobID ≤ jobIDMask + 1` and the induced slot
injectivity).  `checksumFlag` stands for `params.fParams.checksumFlag`;
`inBuffPresent` models `inBuff.buffer.start != NULL`. -/
structure MTCtxS where
  jobs : Nat → JobDesc
  doneJobID : Nat
  nextJobID : Nat
  jobIDMask : Nat
  jobReady : Bool
  checksumFlag : Bool
  frameEnded : Bool
  allJobsCompleted : Bool
  singleBlockingThread : Bool
  inBuffPresent : Bool
  inBuffFilled : Nat
  prefixSize : Nat
  targetPrefixSize : Nat
  targetSectionSize : Nat
  inBuffSize : Nat
  consumed : Nat
  produced : Nat

/-- The streaming state right after `ZSTDMT_initCStream_internal`
(zstdmt_compress.c:940-948) finished resetting the counters, for a context
whose job table has `jobIDMask = mask` and the given sizing/checksum
configuration. -/
def mtInit (mask : Nat) (checksum : Bool)
    (targetPrefixSize targetSectionSize : Nat) : MTCtxS :=
  { jobs := fun _ => emptyJob
    doneJobID := 0
    nextJobID := 0
    jobIDMask := mask
    jobReady := false
    checksumFlag := checksum
    frameEnded := false
    allJobsCompleted := false
    singleBlockingThread := false
    inBuffPresent := false
    inBuffFilled := 0
    prefixSize := 0
    targetPrefixSize := targetPrefixSize
    targetSectionSize := targetSectionSize
    inBuffSize := targetPrefixSize + targetSectionSize
    consumed := 0
    produced := 0 }

/-- Embedding of `ZSTDMT_releaseAllJobResources` (zstdmt_compress.c:559-576):
every job's buffers go back to the pool and the whole job table is
`memset` to zero; the staging buffer is released; `allJobsCompleted` is set.
(`inBuff.filled` is not touched by the C code.) -/
def ZSTDMT_releaseAllJobResources (zcs : MTCtxS) : MTCtxS :=
  { zcs with
      jobs := fun _ => emptyJob
      inBuffPresent := false
      allJobsCompleted := true }

/-- Embedding of `ZSTDMT_waitForAllJobsCompleted` (zstdmt_compress.c:578-591):
blocks until every submitted job signalled completion, advancing
`doneJobID` up to `nextJobID`. -/
def ZSTDMT_waitForAllJobsCompleted (zcs : MTCtxS) : MTCtxS :=
  { zcs with doneJobID := zcs.nextJobID }

/-- The tail of `ZSTDMT_createCompressionJob` (zstdmt_compress.c:1073-1080):
submit the prepared job through the non-blocking `POOL_tryAdd`; on success
`nextJobID++` and `jobReady = 0`, on refusal `jobReady = 1`. -/
def ZSTDMT_tryAddJob (zcs : MTCtxS) (tryAddOK : Bool) : MTCtxS :=
  if tryAddOK then { zcs with nextJobID := zcs.nextJobID + 1, jobReady := false }
  else { zcs with jobReady := true }

/-- Embedding of `ZSTDMT_createCompressionJob` (zstdmt_compress.c:1002-1081).
`allocOK` models the `ZSTDMT_getBuffer` call for the next staging buffer
succeeding, `tryAddOK` the `POOL_tryAdd` outcome.  Returns the new state and
the function's result (`ok 0`, or the memory-allocation error of the
drain-everything path). -/
def ZSTDMT_createCompressionJob (zcs : MTCtxS) (srcSize : Nat) (endFrame : Bool)
    (allocOK tryAddOK : Bool) : MTCtxS × Except ZErr Nat :=
  if zcs.nextJobID > zcs.doneJobID + zcs.jobIDMask then
    -- will not create new job : table is full
    (zcs, Except.ok 0)
  else if zcs.jobReady then
    -- a job is already prepared; skip preparation, directly retry submission
    (ZSTDMT_tryAddJob zcs tryAddOK, Except.ok 0)
  else
    let newJob : JobDesc :=
      { srcSize := srcSize
        prefixSize := zcs.prefixSize
        consumed := 0
        cSize := 0
        cErr := none
        dstFlushed := 0
        srcBuffPresent := zcs.inBuffPresent
        dstBuffPresent := false
        firstChunk := zcs.nextJobID = 0
        lastChunk := endFrame
        jobCompleted := false
        frameChecksumNeeded := endFrame ∧ zcs.nextJobID > 0 ∧ zcs.checksumFlag
        checksumFlag := if zcs.nextJobID ≠ 0 then false else zcs.checksumFlag }
    let zcs1 := { zcs with jobs := Function.update zcs.jobs zcs.nextJobID newJob }
    if !endFrame then
      if !allocOK then
        -- not enough memory to allocate next input buffer : drain everything
        let zcs2 := { zcs1 with
            jobs := Function.update zcs1.jobs zcs.nextJobID
                      { newJob with jobCompleted := true }
            nextJobID := zcs.nextJobID + 1 }
        let zcs3 := ZSTDMT_releaseAllJobResources (ZSTDMT_waitForAllJobsCompleted zcs2)
        (zcs3, Except.error ZErr.memory_allocation)
      else
        let newPrefixSize := min (srcSize + zcs.prefixSize) zcs.targetPrefixSize
        let zcs2 := { zcs1 with
            inBuffPresent := true
            inBuffFilled := zcs.inBuffFilled - (srcSize + zcs.prefixSize - newPrefixSize)
            prefixSize := newPrefixSize }
        (ZSTDMT_tryAddJob zcs2 tryAddOK, Except.ok 0)
    else
      let zcs2 := { zcs1 with
          inBuffPresent := false
          inBuffFilled := 0
          prefixSize := 0
          frameEnded := true
          checksumFlag := if zcs.nextJobID = 0 then false else zcs.checksumFlag }
      (ZSTDMT_tryAddJob zcs2 tryAddOK, Except.ok 0)

/-- Embedding of `ZSTDMT_flushProduced` (zstdmt_compress.c:1088-1155).
The condvar wait is a no-op in this sequential embedding (the state already
reflects whatever progress the workers made), so `blockToFlush` is unused.
Returns the new state, the number of bytes written into `output`, and the
function's result (bytes known to remain, `1` for "unknown but more", `0`
for fully flushed, or a surfaced job error). -/
def ZSTDMT_flushProduced (zcs : MTCtxS) (outRemaining : Nat) (blockToFlush : Bool) :
    MTCtxS × Nat × Except ZErr Nat :=
  let _ := blockToFlush
  let job0 := zcs.jobs zcs.doneJobID
  match job0.cErr with
  | some e =>
      -- compression error detected : drain everything and surface it
      (ZSTDMT_releaseAllJobResources (ZSTDMT_waitForAllJobsCompleted zcs), 0,
       Except.error e)
  | none =>
    -- add frame checksum if necessary (can only happen once)
    let job1 :=
      if job0.jobCompleted ∧ job0.frameChecksumNeeded then
        { job0 with cSize := job0.cSize + 4, frameChecksumNeeded := false }
      else job0
    let zcsA := { zcs with jobs := Function.update zcs.jobs zcs.doneJobID job1 }
    let flushStep : MTCtxS × Nat × JobDesc :=
      if job1.dstBuffPresent then
        let toWrite := min (job1.cSize - job1.dstFlushed) outRemaining
        let job2 := { job1 with dstFlushed := job1.dstFlushed + toWrite }
        if job2.jobCompleted ∧ job2.dstFlushed = job2.cSize then
          -- output buffer fully flushed => release it and move to next job
          ({ zcsA with
              jobs := Function.update zcsA.jobs zcs.doneJobID
                        { job1 with dstBuffPresent := false, jobCompleted := false }
              consumed := zcs.consumed + job2.srcSize
              produced := zcs.produced + job2.cSize
              doneJobID := zcs.doneJobID + 1 },
           toWrite, job2)
        else
          ({ zcsA with
              jobs := Function.update zcsA.jobs zcs.doneJobID job2 },
           toWrite, job2)
      else (zcsA, 0, job1)
    let zcsB := flushStep.1
    let written := flushStep.2.1
    let job2 := flushStep.2.2
    if job2.cSize > job2.dstFlushed then
      (zcsB, written, Except.ok (job2.cSize - job2.dstFlushed))
    else if job2.srcSize > job2.consumed then
      (zcsB, written, Except.ok 1)   -- current job not completely compressed
    else if zcsB.doneJobID < zcsB.nextJobID then
      (zcsB, written, Except.ok 1)   -- some more jobs to flush
    else if zcsB.jobReady then
      (zcsB, written, Except.ok 1)   -- at least one more job to do
    else if zcsB.inBuffFilled > 0 then
      (zcsB, written, Except.ok 1)   -- input not empty
    else
      -- everything flushed : last frame entirely flushed iff frameEnded
      ({ zcsB with allJobsCompleted := zcsB.frameEnded }, written, Except.ok 0)

/- =====   Streaming top level   ===== -/

/-- Modelled from the spec: `ZSTD_compressBound`, the external inner
compressor's worst-case bound (`srcSize + srcSize/256 + margin` in the
public header, which is not part of this repository's source file; the
spec only requires superadditivity for large inputs). -/
def ZSTD_compressBound (srcSize : Nat) : Nat :=
  srcSize + srcSize >>> 8 +
    (if srcSize < 131072 then (131072 - srcSize) >>> 11 else 0)

/-- `ZSTD_EndDirective` of the streaming entry points. -/
inductive EndDirective where
  | e_continue
  | e_flush
  | e_end
deriving DecidableEq, Repr

/-- The caller's `ZSTD_inBuffer` / `ZSTD_outBuffer` pair: positions and
sizes only (byte contents are irrelevant to the claims). -/
structure IOBufs where
  inPos : Nat
  inSize : Nat
  outPos : Nat
  outSize : Nat
deriving DecidableEq, Repr

/-- Environment choices for one `ZSTDMT_compressStream_generic` call:
outcomes of the external allocation, thread-pool submission and of the
single-pass one-shot delegate. -/
structure StreamEnv where
  inBuffAllocOK : Bool
  jobAllocOK : Bool
  tryAddOK : Bool
  oneshotResult : Except ZErr Nat
deriving Repr

/-- Outcome of a `ZSTDMT_compressStream_generic` call: delegation to the
single-blocking-thread inner compressor, or the function's `size_t`
result (an error sentinel or the minimum amount of data remaining to
flush). -/
inductive StreamOutcome where
  | delegated
  | result (r : Except ZErr Nat)
deriving Repr

/-- Embedding of `ZSTDMT_compressStream_generic`
(zstdmt_compress.c:1162-1236), covering, in source order: the
single-blocking-thread delegate, the `frameEnded && continue` stage error,
the single-pass shortcut, staging-buffer filling (with the
allocation-failure early error), the `end → flush` downgrade, conditional
job creation, and the final `ZSTDMT_flushProduced` call (blocking iff no
forward input progress was made). -/
def ZSTDMT_compressStream_generic (mtctx : MTCtxS) (bufs : IOBufs)
    (endOp : EndDirective) (env : StreamEnv) : StreamOutcome × MTCtxS × IOBufs :=
  let newJobThreshold := mtctx.prefixSize + mtctx.targetSectionSize
  if mtctx.singleBlockingThread then
    (StreamOutcome.delegated, mtctx, bufs)
  else if mtctx.frameEnded ∧ endOp = EndDirective.e_continue then
    -- current frame being ended. Only flush/end are allowed
    (StreamOutcome.result (Except.error ZErr.stage_wrong), mtctx, bufs)
  else if mtctx.nextJobID = 0 ∧ mtctx.inBuffFilled = 0 ∧ endOp = EndDirective.e_end
      ∧ bufs.outSize - bufs.outPos ≥ ZSTD_compressBound (bufs.inSize - bufs.inPos) then
    -- single-pass shortcut
    match env.oneshotResult with
    | Except.error e => (StreamOutcome.result (Except.error e), mtctx, bufs)
    | Except.ok cSize =>
        (StreamOutcome.result (Except.ok 0),
         { mtctx with inBuffPresent := false, allJobsCompleted := true, frameEnded := true },
         { bufs with inPos := bufs.inSize, outPos := bufs.outPos + cSize })
  else
    -- fill input buffer
    let fillPhase : Option (MTCtxS × IOBufs × Bool × EndDirective) :=
      if ¬mtctx.jobReady ∧ bufs.inSize > bufs.inPos then
        let mtctx1 :=
          if ¬mtctx.inBuffPresent then
            { mtctx with inBuffPresent := env.inBuffAllocOK, inBuffFilled := 0 }
          else mtctx
        if ¬mtctx1.inBuffPresent ∧ mtctx.doneJobID = mtctx.nextJobID then
          none   -- allocation failure and nothing to flush => error out
        else
          let loadStep :=
            if mtctx1.inBuffPresent then
              let toLoad := min (bufs.inSize - bufs.inPos) (mtctx1.inBuffSize - mtctx1.inBuffFilled)
              ({ mtctx1 with inBuffFilled := mtctx1.inBuffFilled + toLoad },
               { bufs with inPos := bufs.inPos + toLoad },
               decide (toLoad > 0))
            else (mtctx1, bufs, false)
          let endOp1 :=
            if loadStep.2.1.inPos < bufs.inSize ∧ endOp = EndDirective.e_end then
              EndDirective.e_flush   -- can't end now : not all input consumed
            else endOp
          some (loadStep.1, loadStep.2.1, loadStep.2.2, endOp1)
      else some (mtctx, bufs, false, endOp)
    match fillPhase with
    | none => (StreamOutcome.result (Except.error ZErr.memory_allocation), mtctx, bufs)
    | some (mtctx2, bufs2, forwardInputProgress, endOp2) =>
      let createPhase : MTCtxS × Except ZErr Nat :=
        if mtctx2.jobReady
          ∨ mtctx2.inBuffFilled ≥ newJobThreshold
          ∨ (endOp2 ≠ EndDirective.e_continue ∧ mtctx2.inBuffFilled > 0)
          ∨ (endOp2 = EndDirective.e_end ∧ ¬mtctx2.frameEnded) then
          let jobSize := min (mtctx2.inBuffFilled - mtctx2.prefixSize) mtctx2.targetSectionSize
          ZSTDMT_createCompressionJob mtctx2 jobSize (endOp2 = EndDirective.e_end)
            env.jobAllocOK env.tryAddOK
        else (mtctx2, Except.ok 0)
      match createPhase with
      | (mtctx3, Except.error e) => (StreamOutcome.result (Except.error e), mtctx3, bufs2)
      | (mtctx3, Except.ok _) =>
        let flushed := ZSTDMT_flushProduced mtctx3 (bufs2.outSize - bufs2.outPos)
                          (!forwardInputProgress)
        let mtctx4 := flushed.1
        let bufs3 := { bufs2 with outPos := bufs2.outPos + flushed.2.1 }
        match flushed.2.2 with
        | Except.error e => (StreamOutcome.result (Except.error e), mtctx4, bufs3)
        | Except.ok remainingToFlush =>
            if bufs3.inPos < bufs3.inSize then
              (StreamOutcome.result (Except.ok (max remainingToFlush 1)), mtctx4, bufs3)
            else
              (StreamOutcome.result (Except.ok remainingToFlush), mtctx4, bufs3)

/- =====   Orchestrator step relation (for the ring invariant)   ===== -/

/-- One observable transition of the streaming orchestrator's job-ring
bookkeeping: a `ZSTDMT_createCompressionJob` call, a `ZSTDMT_flushProduced`
call, or an asynchronous worker write.  A worker only ever holds a job that
was submitted and not yet retired (`POOL_tryAdd` hands it
`&jobs[nextJobID & mask]` and `doneJobID` passes a job only after its
`jobCompleted` flag — the worker's final write — was observed), so the
worker constructor is restricted to indices in `[doneJobID, nextJobID)`;
within that window it may rewrite the record arbitrarily, an
over-approximation of the writes the worker routine actually performs.
A worker never makes a prepared destination buffer disappear. -/
inductive MTStep : MTCtxS → MTCtxS → Prop
  | create (s : MTCtxS) (srcSize : Nat) (endFrame allocOK tryAddOK : Bool) :
      MTStep s (ZSTDMT_createCompressionJob s srcSize endFrame allocOK tryAddOK).1
  | flush (s : MTCtxS) (outRemaining : Nat) (blockToFlush : Bool) :
      MTStep s (ZSTDMT_flushProduced s outRemaining blockToFlush).1
  | worker (s : MTCtxS) (j : Nat) (job : JobDesc)
      (hlo : s.doneJobID ≤ j) (hhi : j < s.nextJobID) :
      MTStep s { s with jobs := Function.update s.jobs j job }

/-- States reachable by the streaming orchestrator from a freshly
initialized context. -/
def MTReachable (mask : Nat) (checksum : Bool)
    (targetPrefixSize targetSectionSize : Nat) (s : MTCtxS) : Prop :=
  Relation.ReflTransGen MTStep (mtInit mask checksum targetPrefixSize targetSectionSize) s

/-- Bytes still sitting in the current job's destination buffer after a
`ZSTDMT_flushProduced` call that was offered `outRemaining` bytes of output
room: the job's `cSize` — after the 4-byte checksum append the call
performs on a completed job with `frameChecksumNeeded` — minus the bytes
flushed once the call's `memcpy` of
`min(cSize - dstFlushed, outRemaining)` happened (no copy without a
destination buffer). -/
def flushBytesRemaining (zcs : MTCtxS) (outRemaining : Nat) : Nat :=
  let job0 := zcs.jobs zcs.doneJobID
  let job1 :=
    if job0.jobCompleted ∧ job0.frameChecksumNeeded then
      { job0 with cSize := job0.cSize + 4, frameChecksumNeeded := false }
    else job0
  if job1.dstBuffPresent then
    let toWrite := min (job1.cSize - job1.dstFlushed) outRemaining
    let job2 := { job1 with dstFlushed := job1.dstFlushed + toWrite }
    job2.cSize - job2.dstFlushed
  else job1.cSize - job1.dstFlushed

/-- Whether a `ZSTDMT_flushProduced` call offered `outRemaining` bytes of
room retires the current job (destination buffer fully flushed and job
complete), advancing `doneJobID` by one. -/
def flushRetiresJob (zcs : MTCtxS) (outRemaining : Nat) : Bool :=
  let job0 := zcs.jobs zcs.doneJobID
  let job1 :=
    if job0.jobCompleted ∧ job0.frameChecksumNeeded then
      { job0 with cSize := job0.cSize + 4, frameChecksumNeeded := false }
    else job0
  if job1.dstBuffPresent then
    let toWrite := min (job1.cSize - job1.dstFlushed) outRemaining
    let job2 := { job1 with dstFlushed := job1.dstFlushed + toWrite }
    if job2.jobCompleted ∧ job2.dstFlushed = job2.cSize then true else false
  else false

/-- The job-ring bookkeeping invariant behind claim C4: `doneJobID` never
passes `nextJobID`, at most `jobIDMask + 1` jobs are in flight, and a
job record holding a destination buffer always belongs to a job that was
submitted (`< nextJobID`) and not yet retired (`≥ doneJobID`). -/
def RingInv (s : MTCtxS) : Prop :=
  s.doneJobID ≤ s.nextJobID
  ∧ s.nextJobID - s.doneJobID ≤ s.jobIDMask + 1
  ∧ ∀ j, (s.jobs j).dstBuffPresent = true → s.doneJobID ≤ j ∧ j < s.nextJobID

/- ======================================================================
   Theorems
   ====================================================================== -/

/-- C9: `ZSTDMT_CCtxParam_setNbThreads` sets `nbThreads` to the requested
count clamped into `[1, 200]` and returns that clamped value, and as a side
effect overwrites `overlapSizeLog` with the default 6 and `jobSize` with 0
(discarding previously configured values), while leaving every other
parameter field unchanged. -/
theorem setNbThreads_clamps_and_resets_tunables (params : CCtxParams) (n : Nat) :
    (ZSTDMT_CCtxParam_setNbThreads params n).1.nbThreads = max 1 (min n 200)
  ∧ (ZSTDMT_CCtxParam_setNbThreads params n).2 = max 1 (min n 200)
  ∧ (ZSTDMT_CCtxParam_setNbThreads params n).1.overlapSizeLog = 6
  ∧ (ZSTDMT_CCtxParam_setNbThreads params n).1.jobSize = 0
  ∧ (ZSTDMT_CCtxParam_setNbThreads params n).1.compressionLevel = params.compressionLevel
  ∧ (ZSTDMT_CCtxParam_setNbThreads params n).1.windowLog = params.windowLog
  ∧ (ZSTDMT_CCtxParam_setNbThreads params n).1.checksumFlag = params.checksumFlag
  ∧ (ZSTDMT_CCtxParam_setNbThreads params n).1.contentSizeFlag = params.contentSizeFlag := by
  unfold ZSTDMT_CCtxParam_setNbThreads ZSTDMT_NBTHREADS_MAX ZSTDMT_OVERLAPLOG_DEFAULT
  refine ⟨?_, ?_, rfl, rfl, rfl, rfl, rfl, rfl⟩ <;> dsimp only <;> split <;> split <;> omega

/-- C10: `ZSTDMT_resetCStream` silently replaces a zero `pledgedSrcSize`
with `ZSTD_CONTENTSIZE_UNKNOWN` before re-initialization, so the pledged
size it forwards is never zero: an empty frame cannot be pledged through
this entry point. -/
theorem resetCStream_never_forwards_zero_pledge (nbThreads pledgedSrcSize : Nat) :
    (ZSTDMT_resetCStream nbThreads 0).pledged = ZSTD_CONTENTSIZE_UNKNOWN
  ∧ (ZSTDMT_resetCStream nbThreads pledgedSrcSize).pledged ≠ 0
  ∧ ZSTD_CONTENTSIZE_UNKNOWN = 2 ^ 64 - 1 := by
  refine ⟨?_, ?_, rfl⟩
  · by_cases h : nbThreads = 1 <;>
      simp [ZSTDMT_resetCStream, ResetTarget.pledged, h, ZSTD_CONTENTSIZE_UNKNOWN]
  · by_cases h : nbThreads = 1 <;> by_cases h0 : pledgedSrcSize = 0 <;>
      simp [ZSTDMT_resetCStream, ResetTarget.pledged, h, h0, ZSTD_CONTENTSIZE_UNKNOWN]

/-- C5: `ZSTDMT_getBuffer` with a non-empty cache pops the newest cached
buffer and returns it iff its size `s` lies in the band
`s ≥ bufferSize ∧ (s >> 3) ≤ bufferSize`; otherwise the popped buffer is
discarded and a fresh allocation of size `bufferSize` is attempted, which
yields the null buffer (not an error) when allocation fails.  With an empty
cache it goes straight to the fresh allocation. -/
theorem getBuffer_size_band (bSize b : Nat) (rest : List Nat) (allocOK : Bool) :
    ((ZSTDMT_getBuffer ⟨bSize, b :: rest⟩ allocOK).1 = AcquiredBuffer.cached b
        ↔ b ≥ bSize ∧ b >>> 3 ≤ bSize)
  ∧ (¬(b ≥ bSize ∧ b >>> 3 ≤ bSize) →
        (ZSTDMT_getBuffer ⟨bSize, b :: rest⟩ allocOK).1
          = if allocOK then AcquiredBuffer.fresh bSize else AcquiredBuffer.nullBuffer)
  ∧ (ZSTDMT_getBuffer ⟨bSize, b :: rest⟩ allocOK).2 = ⟨bSize, rest⟩
  ∧ (ZSTDMT_getBuffer ⟨bSize, ([] : List Nat)⟩ allocOK).1
      = (if allocOK then AcquiredBuffer.fresh bSize else AcquiredBuffer.nullBuffer) := by
  unfold ZSTDMT_getBuffer
  dsimp only
  by_cases h : b ≥ bSize ∧ b >>> 3 ≤ bSize
  · simp [h]
  · simp [h]
    split <;> simp

/-- C5 witness: a pool with target size 100 caching a 150-byte buffer
(inside the band) and behind it an 801-byte buffer; acquiring returns the
cached 150-byte buffer and the band condition holds. -/
theorem getBuffer_size_band_witness :
    ((ZSTDMT_getBuffer ⟨100, 150 :: [801]⟩ true).1 = AcquiredBuffer.cached 150
        ↔ 150 ≥ 100 ∧ 150 >>> 3 ≤ 100)
  ∧ (¬(150 ≥ 100 ∧ 150 >>> 3 ≤ 100) →
        (ZSTDMT_getBuffer ⟨100, 150 :: [801]⟩ true).1
          = if true then AcquiredBuffer.fresh 100 else AcquiredBuffer.nullBuffer)
  ∧ (ZSTDMT_getBuffer ⟨100, 150 :: [801]⟩ true).2 = ⟨100, [801]⟩
  ∧ (ZSTDMT_getBuffer ⟨100, ([] : List Nat)⟩ true).1
      = (if true then AcquiredBuffer.fresh 100 else AcquiredBuffer.nullBuffer) :=
  getBuffer_size_band 100 150 [801] true

/-- C2 counterexample: at `srcSize = 2`, `nbChunks = 2` the proposed chunk
size is 1 and `((1-1) & 0x1FFFF) = 0 < 0x7FFF`, so the code bumps the
average to `1 + 0xFFFF = 0x10000`, while the claim's rule
(bump by `0x10000` only when the masked value is `≥ 0x7FFF`) would leave
it at 1. -/
theorem avgChunkSize_claim_counterexample :
    avgChunkSize 2 2 = 0x10000
  ∧ avgChunkSizeClaim 2 2 = 1
  ∧ avgChunkSize 2 2 ≠ avgChunkSizeClaim 2 2 := by decide

/-- C2 (amended): `proposedChunkSize` is the exact ceiling
`⌈srcSize/nbChunks⌉` (the least `q` with `srcSize ≤ nbChunks * q`), and the
code adjusts it upward by `0xFFFF` exactly when
`((proposedChunkSize - 1) & 0x1FFFF) < 0x7FFF`, where the subtraction is
the wrapping `size_t` one — equivalently, exactly when
`(proposedChunkSize + 0x1FFFF) mod 0x20000 < 0x7FFF` — leaving it
unchanged otherwise. In particular at `srcSize = 0` the subtraction wraps
to `2^64 - 1`, whose low 17 bits are `0x1FFFF ≥ 0x7FFF`, so no bump
happens and the average is 0. -/
theorem avgChunkSize_characterization (srcSize nbChunks : Nat) (h : 0 < nbChunks) :
    (srcSize ≤ nbChunks * proposedChunkSize srcSize nbChunks
       ∧ ∀ q, srcSize ≤ nbChunks * q → proposedChunkSize srcSize nbChunks ≤ q)
  ∧ avgChunkSize srcSize nbChunks =
      (if (proposedChunkSize srcSize nbChunks + 0x1FFFF) % 0x20000 < 0x7FFF
       then proposedChunkSize srcSize nbChunks + 0xFFFF
       else proposedChunkSize srcSize nbChunks)
  ∧ (srcSize = 0 → avgChunkSize srcSize nbChunks = 0) := by
  refine ⟨⟨?_, ?_⟩, ?_, ?_⟩
  · unfold proposedChunkSize
    have hd := Nat.div_add_mod (srcSize + (nbChunks - 1)) nbChunks
    have hr := Nat.mod_lt (srcSize + (nbChunks - 1)) h
    omega
  · intro q hq
    unfold proposedChunkSize
    exact (Nat.div_le_iff_le_mul_add_pred h).mpr (by omega)
  · have hmask : ∀ x : Nat, x &&& 0x1FFFF = x % 0x20000 := by
      intro x
      have h17 := Nat.and_pow_two_sub_one_eq_mod x 17
      norm_num at h17
      exact h17
    have hcond : (proposedChunkSize srcSize nbChunks + (2 ^ 64 - 1)) % 2 ^ 64 % 0x20000
        = (proposedChunkSize srcSize nbChunks + 0x1FFFF) % 0x20000 := by
      rw [Nat.mod_mod_of_dvd _ (⟨2 ^ 47, by norm_num⟩ : (0x20000 : Nat) ∣ 2 ^ 64),
          show (2 : Nat) ^ 64 - 1 = 0x1FFFF + 0x20000 * (2 ^ 47 - 1) from by norm_num,
          ← Nat.add_assoc, Nat.add_mul_mod_self_left]
    simp only [avgChunkSize, hmask, hcond]
  · intro h0
    subst h0
    have hp : proposedChunkSize 0 nbChunks = 0 := by
      unfold proposedChunkSize
      exact Nat.div_eq_of_lt (by omega)
    simp only [avgChunkSize, hp]
    decide

/-- C2 witness for the amended statement, at the wrap point itself:
`srcSize = 0`, `nbChunks = 2`. The proposed size is 0, the wrapped
`(0 - 1) & 0x1FFFF = 0x1FFFF ≥ 0x7FFF` takes the no-bump branch, and the
average is 0 — matching what the C computes in `size_t`. -/
theorem avgChunkSize_characterization_witness :
    (0 ≤ 2 * proposedChunkSize 0 2
       ∧ ∀ q, 0 ≤ 2 * q → proposedChunkSize 0 2 ≤ q)
  ∧ avgChunkSize 0 2 =
      (if (proposedChunkSize 0 2 + 0x1FFFF) % 0x20000 < 0x7FFF
       then proposedChunkSize 0 2 + 0xFFFF
       else proposedChunkSize 0 2)
  ∧ (0 = 0 → avgChunkSize 0 2 = 0) :=
  avgChunkSize_characterization 0 2 (by decide)

/-- C1 counterexample: a last chunk whose payload is exactly one full
block (`srcSize = ZSTD_BLOCKSIZE_MAX`, a multiple of `BLOCK_MAX`) makes its
final `ZSTD_compressEnd` call with a full `BLOCK_MAX`-sized block, not with
a zero-size block as the claim states. -/
theorem compressChunk_zero_last_block_counterexample :
    ZSTD_BLOCKSIZE_MAX % ZSTD_BLOCKSIZE_MAX = 0
  ∧ (ZSTDMT_compressChunk_calls ZSTD_BLOCKSIZE_MAX true true).getLast?
      = some (CompressorCall.compressEnd ZSTD_BLOCKSIZE_MAX)
  ∧ CompressorCall.compressEnd ZSTD_BLOCKSIZE_MAX ≠ CompressorCall.compressEnd 0 := by
  decide

/-- C1 (amended): on every last chunk the worker's final compressor call is
`ZSTD_compressEnd` (so every last chunk carries the last-block marker), fed
with `srcSize mod BLOCK_MAX` bytes when that is non-zero, with a full
`BLOCK_MAX`-sized block when `srcSize` is a positive multiple of
`BLOCK_MAX`, and with a zero-size block exactly when the payload is empty
(`srcSize = 0`). -/
theorem compressChunk_last_call_is_end (srcSize : Nat) (firstChunk : Bool) :
    ∃ lastBlockSize,
      (ZSTDMT_compressChunk_calls srcSize firstChunk true).getLast?
        = some (CompressorCall.compressEnd lastBlockSize)
    ∧ (lastBlockSize = 0 ↔ srcSize = 0)
    ∧ (srcSize % ZSTD_BLOCKSIZE_MAX = 0 ∧ 0 < srcSize →
          lastBlockSize = ZSTD_BLOCKSIZE_MAX)
    ∧ (srcSize % ZSTD_BLOCKSIZE_MAX ≠ 0 →
          lastBlockSize = srcSize % ZSTD_BLOCKSIZE_MAX) := by
  refine ⟨if srcSize % ZSTD_BLOCKSIZE_MAX = 0 ∧ srcSize ≥ ZSTD_BLOCKSIZE_MAX
          then ZSTD_BLOCKSIZE_MAX else srcSize % ZSTD_BLOCKSIZE_MAX, ?_, ?_, ?_, ?_⟩
  · simp only [ZSTDMT_compressChunk_calls, or_true, ite_true]
    exact List.getLast?_concat _
  · unfold ZSTD_BLOCKSIZE_MAX
    split <;> omega
  · unfold ZSTD_BLOCKSIZE_MAX
    split <;> omega
  · unfold ZSTD_BLOCKSIZE_MAX
    split <;> omega

/-- C1 witness for the amended statement, at a concrete two-block payload
of a non-first last chunk. -/
theorem compressChunk_last_call_is_end_witness :
    ∃ lastBlockSize,
      (ZSTDMT_compressChunk_calls 262144 false true).getLast?
        = some (CompressorCall.compressEnd lastBlockSize)
    ∧ (lastBlockSize = 0 ↔ 262144 = 0)
    ∧ (262144 % ZSTD_BLOCKSIZE_MAX = 0 ∧ 0 < 262144 →
          lastBlockSize = ZSTD_BLOCKSIZE_MAX)
    ∧ (262144 % ZSTD_BLOCKSIZE_MAX ≠ 0 →
          lastBlockSize = 262144 % ZSTD_BLOCKSIZE_MAX) :=
  compressChunk_last_call_is_end 262144 false

/-- C6: absent machine-integer truncation (the hypotheses say the
intermediate values fit their C types), the one-shot chunk count follows
exactly the claimed recipe: with `target = 2^(windowLog+2)`,
`maxChunk = 4*target`, `perPass = maxChunk * nbThreads` and
`m = srcSize/perPass + 1`, the result is `m * nbThreads` when `m > 1`, and
`min nbThreads (srcSize/target + 1)` otherwise. -/
theorem computeNbChunks_formula (srcSize windowLog nbThreads : Nat)
    (hT : 1 ≤ nbThreads)
    (hW : windowLog + 4 < 64)
    (hPass : 2 ^ (windowLog + 4) * nbThreads < 2 ^ 64)
    (hMul : srcSize / (2 ^ (windowLog + 4) * nbThreads) < 2 ^ 32)
    (hLarge : (srcSize / (2 ^ (windowLog + 4) * nbThreads) + 1) * nbThreads < 2 ^ 32)
    (hMax : srcSize / 2 ^ (windowLog + 2) < 2 ^ 32) :
    ZSTDMT_computeNbChunks srcSize windowLog nbThreads =
      if srcSize / (2 ^ (windowLog + 4) * nbThreads) + 1 > 1
      then (srcSize / (2 ^ (windowLog + 4) * nbThreads) + 1) * nbThreads
      else min nbThreads (srcSize / 2 ^ (windowLog + 2) + 1) := by
  have hp2 : 2 ^ (windowLog + 2) < 2 ^ 64 := Nat.pow_lt_pow_right (by norm_num) (by omega)
  have hp4 : 2 ^ (windowLog + 4) < 2 ^ 64 := Nat.pow_lt_pow_right (by norm_num) (by omega)
  have e1 : (1 <<< (windowLog + 2)) % 2 ^ 64 = 2 ^ (windowLog + 2) := by
    rw [Nat.shiftLeft_eq, one_mul]; exact Nat.mod_eq_of_lt hp2
  have e2 : (2 ^ (windowLog + 2) <<< 2) % 2 ^ 64 = 2 ^ (windowLog + 4) := by
    rw [Nat.shiftLeft_eq, ← pow_add]
    have h4 : windowLog + 2 + 2 = windowLog + 4 := by omega
    rw [h4]; exact Nat.mod_eq_of_lt hp4
  have e3 : 2 ^ (windowLog + 4) * nbThreads % 2 ^ 64 = 2 ^ (windowLog + 4) * nbThreads :=
    Nat.mod_eq_of_lt hPass
  have e4 : srcSize / (2 ^ (windowLog + 4) * nbThreads) % 2 ^ 32
      = srcSize / (2 ^ (windowLog + 4) * nbThreads) := Nat.mod_eq_of_lt hMul
  have e5 : (srcSize / (2 ^ (windowLog + 4) * nbThreads) + 1) * nbThreads % 2 ^ 32
      = (srcSize / (2 ^ (windowLog + 4) * nbThreads) + 1) * nbThreads :=
    Nat.mod_eq_of_lt hLarge
  have e6 : srcSize / 2 ^ (windowLog + 2) % 2 ^ 32 = srcSize / 2 ^ (windowLog + 2) :=
    Nat.mod_eq_of_lt hMax
  simp only [ZSTDMT_computeNbChunks, e1, e2, e3, e4, e5, e6, Nat.min_comm]

/-- C6 witness: `srcSize = 10^7`, `windowLog = 20`, 4 threads — `perPass`
is `2^24 * 4`, `m = 1`, so the small branch `min 4 (10^7 / 2^22 + 1) = 3`
is taken. -/
theorem computeNbChunks_formula_witness :
    ZSTDMT_computeNbChunks 10000000 20 4 =
      if 10000000 / (2 ^ (20 + 4) * 4) + 1 > 1
      then (10000000 / (2 ^ (20 + 4) * 4) + 1) * 4
      else min 4 (10000000 / 2 ^ (20 + 2) + 1) :=
  computeNbChunks_formula 10000000 20 4 (by decide) (by decide) (by decide) (by decide)
    (by decide) (by decide)

/-- C8: once the frame has ended (`frameEnded = 1`) and the context is not
in single-blocking-thread mode, a streaming call with `endOp = continue`
returns the `stage_wrong` error and leaves the orchestrator state, the
input positions and the output positions untouched: no input is consumed
and no output is produced. -/
theorem compressStream_frameEnded_continue_error
    (mtctx : MTCtxS) (bufs : IOBufs) (env : StreamEnv)
    (hS : mtctx.singleBlockingThread = false)
    (hF : mtctx.frameEnded = true) :
    ZSTDMT_compressStream_generic mtctx bufs EndDirective.e_continue env
      = (StreamOutcome.result (Except.error ZErr.stage_wrong), mtctx, bufs) := by
  unfold ZSTDMT_compressStream_generic
  simp [hS, hF]

/-- C8 witness: a concrete ended-frame context rejects a `continue` call
with `stage_wrong`, unchanged. -/
theorem compressStream_frameEnded_continue_error_witness :
    ZSTDMT_compressStream_generic { mtInit 3 true 100 400 with frameEnded := true }
        ⟨0, 10, 0, 50⟩ EndDirective.e_continue ⟨true, true, true, Except.ok 0⟩
      = (StreamOutcome.result (Except.error ZErr.stage_wrong),
         { mtInit 3 true 100 400 with frameEnded := true }, ⟨0, 10, 0, 50⟩) :=
  compressStream_frameEnded_continue_error _ _ _ rfl rfl

/-- C3: the per-frame checksum trailer is routed so that it is written
exactly once.  Part one (job creation, `ZSTDMT_createCompressionJob`):
whenever a job is actually prepared (ring not full, no job pending),
(i) a job created after job 0 has its own `checksumFlag` cleared,
(ii) its `frameChecksumNeeded` is set iff it ends the frame, is not job 0,
and the orchestrator's checksum is enabled, and
(iii) an end-frame call clears the orchestrator's `checksumFlag` exactly
when the frame's only job is job 0 (so the lone worker writes the
checksum itself).  Part two (`ZSTDMT_flushProduced`): on a completed,
non-errored job whose `frameChecksumNeeded` is set, the 4 little-endian
digest bytes are appended to the job's destination buffer (`cSize` grows
by 4) and the flag is cleared, so a second call cannot append again. -/
theorem checksum_written_once :
    (∀ (zcs : MTCtxS) (srcSize : Nat) (endFrame allocOK tryAddOK : Bool),
      zcs.jobReady = false →
      ¬ zcs.nextJobID > zcs.doneJobID + zcs.jobIDMask →
      ((zcs.nextJobID ≠ 0 →
          (((ZSTDMT_createCompressionJob zcs srcSize endFrame allocOK tryAddOK).1.jobs
              zcs.nextJobID).checksumFlag = false))
      ∧ (((ZSTDMT_createCompressionJob zcs srcSize endFrame allocOK tryAddOK).1.jobs
            zcs.nextJobID).frameChecksumNeeded = true
          ↔ (endFrame = true ∧ zcs.nextJobID > 0 ∧ zcs.checksumFlag = true))
      ∧ (endFrame = true →
          (ZSTDMT_createCompressionJob zcs srcSize endFrame allocOK tryAddOK).1.checksumFlag
            = (if zcs.nextJobID = 0 then false else zcs.checksumFlag))))
  ∧ (∀ (zcs : MTCtxS) (outR : Nat) (blk : Bool),
      (zcs.jobs zcs.doneJobID).cErr = none →
      (zcs.jobs zcs.doneJobID).jobCompleted = true →
      (zcs.jobs zcs.doneJobID).frameChecksumNeeded = true →
      (((ZSTDMT_flushProduced zcs outR blk).1.jobs zcs.doneJobID).cSize
          = (zcs.jobs zcs.doneJobID).cSize + 4
      ∧ ((ZSTDMT_flushProduced zcs outR blk).1.jobs zcs.doneJobID).frameChecksumNeeded
          = false)) := by
  constructor
  · intro zcs srcSize endFrame allocOK tryAddOK hready hguard
    unfold ZSTDMT_createCompressionJob
    rw [if_neg hguard, if_neg (by simp [hready])]
    cases endFrame with
    | true =>
        simp only [Bool.not_true, if_neg]
        unfold ZSTDMT_tryAddJob
        cases tryAddOK <;>
          simp [Function.update_same, emptyJob] <;>
          by_cases h0 : zcs.nextJobID = 0 <;> simp [h0] <;> omega
    | false =>
        cases allocOK with
        | false =>
            unfold ZSTDMT_releaseAllJobResources ZSTDMT_waitForAllJobsCompleted
            simp [emptyJob]
        | true =>
            unfold ZSTDMT_tryAddJob
            cases tryAddOK <;>
              simp [Function.update_same, emptyJob] <;>
              by_cases h0 : zcs.nextJobID = 0 <;> simp [h0] <;> omega
  · intro zcs outR blk herr hcomp hneed
    cases hbuf : (zcs.jobs zcs.doneJobID).dstBuffPresent <;>
      simp only [ZSTDMT_flushProduced, herr, hcomp, hneed, hbuf, and_self, ite_true,
        Bool.false_eq_true, ite_false] <;>
      (repeat' split) <;>
      simp_all [Function.update_same]

/-- C3 witness: part one applied to a ready context about to create job 1
as an end-frame job with checksum enabled; part two applied to a context
whose job 0 is completed with `frameChecksumNeeded` set. -/
theorem checksum_written_once_witness :
    (let zcs : MTCtxS :=
       { mtInit 3 true 100 400 with nextJobID := 1, inBuffPresent := true, inBuffFilled := 400 }
     (zcs.nextJobID ≠ 0 →
        ((ZSTDMT_createCompressionJob zcs 300 true true true).1.jobs zcs.nextJobID).checksumFlag
          = false)
     ∧ (((ZSTDMT_createCompressionJob zcs 300 true true true).1.jobs
            zcs.nextJobID).frameChecksumNeeded = true
          ↔ (true = true ∧ zcs.nextJobID > 0 ∧ zcs.checksumFlag = true))
     ∧ (true = true →
          (ZSTDMT_createCompressionJob zcs 300 true true true).1.checksumFlag
            = (if zcs.nextJobID = 0 then false else zcs.checksumFlag)))
  ∧ (let zcs2 : MTCtxS :=
       { mtInit 3 true 100 400 with
           nextJobID := 1,
           jobs := Function.update (fun _ => emptyJob) 0
                     ({ emptyJob with
                        jobCompleted := true, frameChecksumNeeded := true,
                        cSize := 10, dstBuffPresent := true, srcSize := 400,
                        consumed := 400 }) }
     ((ZSTDMT_flushProduced zcs2 50 true).1.jobs zcs2.doneJobID).cSize
        = (zcs2.jobs zcs2.doneJobID).cSize + 4
     ∧ ((ZSTDMT_flushProduced zcs2 50 true).1.jobs zcs2.doneJobID).frameChecksumNeeded
        = false) :=
  ⟨checksum_written_once.1 _ 300 true true true rfl (by decide),
   checksum_written_once.2 _ 50 true (by decide) (by decide) (by decide)⟩

set_option maxHeartbeats 2000000 in
/-- C7: return protocol of `ZSTDMT_flushProduced` on a non-errored current
job.  Hypotheses record facts that hold for the job slot `doneJobID` in any
reachable state: no error sentinel, `dstFlushed` never exceeds `cSize`, a
completed job has consumed its whole payload (the worker sets
`consumed = srcSize` before `jobCompleted`), and a partially-consumed job
is in flight (submitted, or prepared with `jobReady`).  Conclusion: the
call returns the strictly-positive count of bytes still in the current
job's destination buffer when any remain; otherwise `1` when more jobs are
queued (`doneJobID < nextJobID`), or `jobReady` is set, or the staging
buffer is non-empty; otherwise `0` — and only on that `0` path is
`allJobsCompleted` set (to `frameEnded`), all other paths leaving it
untouched. -/
theorem flushProduced_return_protocol (zcs : MTCtxS) (outR : Nat) (blk : Bool)
    (h_err : (zcs.jobs zcs.doneJobID).cErr = none)
    (h_fl : (zcs.jobs zcs.doneJobID).dstFlushed ≤ (zcs.jobs zcs.doneJobID).cSize)
    (h_comp : (zcs.jobs zcs.doneJobID).jobCompleted = true →
        (zcs.jobs zcs.doneJobID).consumed = (zcs.jobs zcs.doneJobID).srcSize)
    (h_inflight : (zcs.jobs zcs.doneJobID).consumed < (zcs.jobs zcs.doneJobID).srcSize →
        zcs.doneJobID < zcs.nextJobID ∨ zcs.jobReady = true) :
    (0 < flushBytesRemaining zcs outR →
        (ZSTDMT_flushProduced zcs outR blk).2.2 = Except.ok (flushBytesRemaining zcs outR)
      ∧ (ZSTDMT_flushProduced zcs outR blk).1.allJobsCompleted = zcs.allJobsCompleted)
  ∧ (flushBytesRemaining zcs outR = 0 →
      (zcs.doneJobID + (if flushRetiresJob zcs outR then 1 else 0) < zcs.nextJobID
        ∨ zcs.jobReady = true ∨ 0 < zcs.inBuffFilled →
          (ZSTDMT_flushProduced zcs outR blk).2.2 = Except.ok 1
        ∧ (ZSTDMT_flushProduced zcs outR blk).1.allJobsCompleted = zcs.allJobsCompleted)
    ∧ (¬(zcs.doneJobID + (if flushRetiresJob zcs outR then 1 else 0) < zcs.nextJobID
        ∨ zcs.jobReady = true ∨ 0 < zcs.inBuffFilled) →
          (ZSTDMT_flushProduced zcs outR blk).2.2 = Except.ok 0
        ∧ (ZSTDMT_flushProduced zcs outR blk).1.allJobsCompleted = zcs.frameEnded)) := by
  have hcs := h_comp
  refine ⟨fun hpos => ?_, fun h0 => ⟨fun hdis => ?_, fun hdis => ?_⟩⟩
  · cases hcomp : (zcs.jobs zcs.doneJobID).jobCompleted <;>
      cases hneed : (zcs.jobs zcs.doneJobID).frameChecksumNeeded <;>
      cases hbuf : (zcs.jobs zcs.doneJobID).dstBuffPresent <;>
      simp only [ZSTDMT_flushProduced, flushBytesRemaining, flushRetiresJob, h_err, hcomp,
        hneed, hbuf, Bool.false_eq_true, false_and, and_false, true_and, and_true,
        eq_self_iff_true, and_self, ite_true, ite_false, Nat.add_zero] at hpos ⊢ <;>
      simp only [hcomp, Bool.false_eq_true, eq_self_iff_true, true_implies,
        false_implies] at hcs <;>
      split_ifs <;>
      (try dsimp only at *) <;>
      first
        | exact ⟨rfl, rfl⟩
        | (exfalso; omega)
  · cases hcomp : (zcs.jobs zcs.doneJobID).jobCompleted <;>
      cases hneed : (zcs.jobs zcs.doneJobID).frameChecksumNeeded <;>
      cases hbuf : (zcs.jobs zcs.doneJobID).dstBuffPresent <;>
      simp only [ZSTDMT_flushProduced, flushBytesRemaining, flushRetiresJob, h_err, hcomp,
        hneed, hbuf, Bool.false_eq_true, false_and, and_false, true_and, and_true,
        eq_self_iff_true, and_self, ite_true, ite_false, Nat.add_zero] at h0 hdis ⊢ <;>
      simp only [hcomp, Bool.false_eq_true, eq_self_iff_true, true_implies,
        false_implies] at hcs <;>
      split_ifs at hdis ⊢ <;>
      (try dsimp only at *) <;>
      first
        | exact ⟨rfl, rfl⟩
        | (exfalso; omega)
        | (exfalso
           rcases hdis with hd | hj | hf
           · omega
           · exact absurd hj (by assumption)
           · exact absurd hf (by assumption))
        | (exfalso; simp_all)
  · cases hcomp : (zcs.jobs zcs.doneJobID).jobCompleted <;>
      cases hneed : (zcs.jobs zcs.doneJobID).frameChecksumNeeded <;>
      cases hbuf : (zcs.jobs zcs.doneJobID).dstBuffPresent <;>
      simp only [ZSTDMT_flushProduced, flushBytesRemaining, flushRetiresJob, h_err, hcomp,
        hneed, hbuf, Bool.false_eq_true, false_and, and_false, true_and, and_true,
        eq_self_iff_true, and_self, ite_true, ite_false, Nat.add_zero] at h0 hdis ⊢ <;>
      simp only [hcomp, Bool.false_eq_true, eq_self_iff_true, true_implies,
        false_implies] at hcs <;>
      split_ifs at hdis ⊢ <;>
      (try dsimp only at *) <;>
      first
        | exact ⟨rfl, rfl⟩
        | (exfalso; omega)
        | (exfalso; exact hdis (Or.inl (by omega)))
        | (exfalso; exact hdis (Or.inr (Or.inl (by assumption))))
        | (exfalso; exact hdis (Or.inr (Or.inr (by assumption))))
        | (exfalso
           rcases h_inflight (by omega) with hd | hj
           · exact hdis (Or.inl (by omega))
           · exact hdis (Or.inr (Or.inl hj)))
        | (exfalso; simp_all)

/-- C7 witness: a context whose job 0 is complete (5 bytes consumed,
10 produced, none flushed yet) with 50 bytes of output room: 10 bytes sit
in the buffer, and the protocol theorem applies. -/
theorem flushProduced_return_protocol_witness :
    (let zcs : MTCtxS :=
       { mtInit 3 false 100 400 with
           nextJobID := 1,
           jobs := Function.update (fun _ => emptyJob) 0
                     ({ emptyJob with
                        jobCompleted := true, cSize := 10, dstBuffPresent := true,
                        srcSize := 5, consumed := 5 }) }
     (0 < flushBytesRemaining zcs 50 →
        (ZSTDMT_flushProduced zcs 50 true).2.2 = Except.ok (flushBytesRemaining zcs 50)
      ∧ (ZSTDMT_flushProduced zcs 50 true).1.allJobsCompleted = zcs.allJobsCompleted)
  ∧ (flushBytesRemaining zcs 50 = 0 →
      (zcs.doneJobID + (if flushRetiresJob zcs 50 then 1 else 0) < zcs.nextJobID
        ∨ zcs.jobReady = true ∨ 0 < zcs.inBuffFilled →
          (ZSTDMT_flushProduced zcs 50 true).2.2 = Except.ok 1
        ∧ (ZSTDMT_flushProduced zcs 50 true).1.allJobsCompleted = zcs.allJobsCompleted)
    ∧ (¬(zcs.doneJobID + (if flushRetiresJob zcs 50 then 1 else 0) < zcs.nextJobID
        ∨ zcs.jobReady = true ∨ 0 < zcs.inBuffFilled) →
          (ZSTDMT_flushProduced zcs 50 true).2.2 = Except.ok 0
        ∧ (ZSTDMT_flushProduced zcs 50 true).1.allJobsCompleted = zcs.frameEnded))) :=
  flushProduced_return_protocol _ 50 true (by decide) (by decide) (by decide) (by decide)

/-- The freshly initialized streaming state satisfies the ring invariant. -/
theorem ringInv_init (mask : Nat) (checksum : Bool) (tps tss : Nat) :
    RingInv (mtInit mask checksum tps tss) := by
  refine ⟨Nat.le_refl 0, by simp [mtInit], fun j hj => ?_⟩
  simp only [mtInit, emptyJob] at hj
  exact absurd hj (by decide)

/-- `ZSTDMT_createCompressionJob` preserves the ring invariant. -/
theorem ringInv_create (s : MTCtxS) (srcSize : Nat) (endFrame allocOK tryAddOK : Bool)
    (h : RingInv s) :
    RingInv (ZSTDMT_createCompressionJob s srcSize endFrame allocOK tryAddOK).1 := by
  obtain ⟨h1, h2, h3⟩ := h
  simp only [ZSTDMT_createCompressionJob, ZSTDMT_tryAddJob, ZSTDMT_releaseAllJobResources,
    ZSTDMT_waitForAllJobsCompleted, RingInv]
  split_ifs <;>
    (try dsimp only) <;>
    refine ⟨by omega, by omega, fun j hj => ?_⟩ <;>
    first
      | (by_cases hji : j = s.nextJobID
         · subst hji
           simp only [Function.update_same] at hj
           exact absurd hj (by decide)
         · simp only [Function.update_noteq hji] at hj
           rcases h3 j hj with ⟨hl, hr⟩
           exact ⟨by omega, by omega⟩)
      | (simp only [emptyJob] at hj; exact absurd hj (by decide))
      | (rcases h3 j hj with ⟨hl, hr⟩; exact ⟨by omega, by omega⟩)

set_option maxHeartbeats 1600000 in
/-- `ZSTDMT_flushProduced` preserves the ring invariant. -/
theorem ringInv_flush (s : MTCtxS) (outRemaining : Nat) (blockToFlush : Bool)
    (h : RingInv s) :
    RingInv (ZSTDMT_flushProduced s outRemaining blockToFlush).1 := by
  obtain ⟨h1, h2, h3⟩ := h
  cases herr : (s.jobs s.doneJobID).cErr with
  | some e =>
      simp only [ZSTDMT_flushProduced, herr, ZSTDMT_releaseAllJobResources,
        ZSTDMT_waitForAllJobsCompleted, RingInv]
      exact ⟨by omega, by omega, fun j hj => by
        simp only [emptyJob] at hj; exact absurd hj (by decide)⟩
  | none =>
      cases hbuf : (s.jobs s.doneJobID).dstBuffPresent with
      | true =>
          have hdn := h3 s.doneJobID hbuf
          cases hcomp : (s.jobs s.doneJobID).jobCompleted <;>
            cases hneed : (s.jobs s.doneJobID).frameChecksumNeeded <;>
            simp only [ZSTDMT_flushProduced, RingInv, herr, hcomp, hneed, hbuf,
              Bool.false_eq_true, false_and, and_false, true_and, and_true,
              eq_self_iff_true, and_self, ite_true, ite_false] <;>
            split_ifs <;>
            (try dsimp only) <;>
            refine ⟨by omega, by omega, fun j hj => ?_⟩ <;>
            first
              | (by_cases hji : j = s.doneJobID
                 · subst hji
                   simp only [Function.update_same] at hj
                   first
                     | exact absurd hj (by decide)
                     | exact ⟨by omega, by omega⟩
                     | (simp only [hbuf] at hj; exact absurd hj (by decide))
                 · simp only [Function.update_noteq hji] at hj
                   rcases h3 j hj with ⟨hl, hr⟩
                   exact ⟨by omega, by omega⟩)
              | (rcases h3 j hj with ⟨hl, hr⟩; exact ⟨by omega, by omega⟩)
      | false =>
          cases hcomp : (s.jobs s.doneJobID).jobCompleted <;>
            cases hneed : (s.jobs s.doneJobID).frameChecksumNeeded <;>
            simp only [ZSTDMT_flushProduced, RingInv, herr, hcomp, hneed, hbuf,
              Bool.false_eq_true, false_and, and_false, true_and, and_true,
              eq_self_iff_true, and_self, ite_true, ite_false] <;>
            split_ifs <;>
            (try dsimp only) <;>
            refine ⟨by omega, by omega, fun j hj => ?_⟩ <;>
            first
              | (by_cases hji : j = s.doneJobID
                 · subst hji
                   simp only [Function.update_same, hbuf] at hj
                   exact absurd hj (by decide)
                 · simp only [Function.update_noteq hji] at hj
                   rcases h3 j hj with ⟨hl, hr⟩
                   exact ⟨by omega, by omega⟩)
              | (rcases h3 j hj with ⟨hl, hr⟩; exact ⟨by omega, by omega⟩)

/-- A worker write to an in-flight job slot preserves the ring invariant. -/
theorem ringInv_worker (s : MTCtxS) (j : Nat) (job : JobDesc)
    (hlo : s.doneJobID ≤ j) (hhi : j < s.nextJobID) (h : RingInv s) :
    RingInv { s with jobs := Function.update s.jobs j job } := by
  obtain ⟨h1, h2, h3⟩ := h
  refine ⟨h1, h2, fun k hk => ?_⟩
  by_cases hkj : k = j
  · subst hkj; exact ⟨hlo, hhi⟩
  · simp only [Function.update_noteq hkj] at hk
    exact h3 k hk

/-- Every orchestrator step preserves the ring invariant. -/
theorem ringInv_step (s s' : MTCtxS) (hstep : MTStep s s') (h : RingInv s) : RingInv s' := by
  cases hstep with
  | create srcSize endFrame allocOK tryAddOK =>
      exact ringInv_create s srcSize endFrame allocOK tryAddOK h
  | flush outRemaining blockToFlush => exact ringInv_flush s outRemaining blockToFlush h
  | worker j job hlo hhi => exact ringInv_worker s j job hlo hhi h

/-- Every reachable orchestrator state satisfies the ring invariant. -/
theorem ringInv_reachable (mask : Nat) (checksum : Bool) (tps tss : Nat) (s : MTCtxS)
    (h : MTReachable mask checksum tps tss s) : RingInv s := by
  induction h with
  | refl => exact ringInv_init mask checksum tps tss
  | tail hsteps hstep ih => exact ringInv_step _ _ hstep ih

set_option maxHeartbeats 1600000 in
/-- Under a non-errored current job, `ZSTDMT_flushProduced` advances
`doneJobID` by exactly one when the call retires the job (destination
buffer present, job complete, fully flushed after the copy — the
`flushRetiresJob` condition) and leaves it unchanged otherwise. -/
theorem flushProduced_doneJobID (zcs : MTCtxS) (outR : Nat) (blk : Bool)
    (h_err : (zcs.jobs zcs.doneJobID).cErr = none) :
    (ZSTDMT_flushProduced zcs outR blk).1.doneJobID
      = zcs.doneJobID + (if flushRetiresJob zcs outR then 1 else 0) := by
  cases hcomp : (zcs.jobs zcs.doneJobID).jobCompleted <;>
    cases hneed : (zcs.jobs zcs.doneJobID).frameChecksumNeeded <;>
    cases hbuf : (zcs.jobs zcs.doneJobID).dstBuffPresent <;>
    simp only [ZSTDMT_flushProduced, flushRetiresJob, h_err, hcomp, hneed, hbuf,
      Bool.false_eq_true, false_and, and_false, true_and, and_true, eq_self_iff_true,
      and_self, ite_true, ite_false, Nat.add_zero] <;>
    split_ifs <;>
    (try dsimp only) <;>
    first
      | rfl
      | omega
      | simp_all

/-- C4: in every reachable streaming state the job ring is sound:
`doneJobID ≤ nextJobID` with at most `jobIDMask + 1` jobs in flight;
`ZSTDMT_createCompressionJob` refuses to prepare a job (returns 0, state
unchanged) whenever `nextJobID > doneJobID + jobIDMask`; `doneJobID` is
advanced by `ZSTDMT_flushProduced` only when the current job is complete
and its destination buffer fully flushed (the `flushRetiresJob`
condition); and any two distinct in-flight job IDs map to distinct ring
slots (`id mod (jobIDMask+1)`), so a slot is never overwritten before it
is drained. -/
theorem ring_never_overwritten (mask : Nat) (checksum : Bool) (tps tss : Nat)
    (s : MTCtxS) (h : MTReachable mask checksum tps tss s) :
    (s.doneJobID ≤ s.nextJobID ∧ s.nextJobID - s.doneJobID ≤ s.jobIDMask + 1)
  ∧ (∀ srcSize : Nat, ∀ endFrame allocOK tryAddOK : Bool,
       s.nextJobID > s.doneJobID + s.jobIDMask →
       ZSTDMT_createCompressionJob s srcSize endFrame allocOK tryAddOK = (s, Except.ok 0))
  ∧ (∀ outR : Nat, ∀ blk : Bool, (s.jobs s.doneJobID).cErr = none →
       (ZSTDMT_flushProduced s outR blk).1.doneJobID
         = s.doneJobID + (if flushRetiresJob s outR then 1 else 0))
  ∧ (∀ i j : Nat, s.doneJobID ≤ i → i < j → j < s.nextJobID →
       i % (s.jobIDMask + 1) ≠ j % (s.jobIDMask + 1)) := by
  obtain ⟨h1, h2, h3⟩ := ringInv_reachable mask checksum tps tss s h
  refine ⟨⟨h1, h2⟩, ?_, ?_, ?_⟩
  · intro srcSize endFrame allocOK tryAddOK hfull
    unfold ZSTDMT_createCompressionJob
    rw [if_pos hfull]
  · intro outR blk herr
    exact flushProduced_doneJobID s outR blk herr
  · intro i j hi hij hj heq
    have hdvd : (s.jobIDMask + 1) ∣ (j - i) :=
      (Nat.modEq_iff_dvd' (Nat.le_of_lt hij)).mp heq
    have hle : s.jobIDMask + 1 ≤ j - i := Nat.le_of_dvd (by omega) hdvd
    omega

/-- C4 witness: the invariant package applied to the freshly initialized
context itself (reachable by the empty step sequence). -/
theorem ring_never_overwritten_witness :
    ((mtInit 3 true 100 400).doneJobID ≤ (mtInit 3 true 100 400).nextJobID
      ∧ (mtInit 3 true 100 400).nextJobID - (mtInit 3 true 100 400).doneJobID
          ≤ (mtInit 3 true 100 400).jobIDMask + 1)
  ∧ (∀ srcSize : Nat, ∀ endFrame allocOK tryAddOK : Bool,
       (mtInit 3 true 100 400).nextJobID
           > (mtInit 3 true 100 400).doneJobID + (mtInit 3 true 100 400).jobIDMask →
       ZSTDMT_createCompressionJob (mtInit 3 true 100 400) srcSize endFrame allocOK tryAddOK
         = (mtInit 3 true 100 400, Except.ok 0))
  ∧ (∀ outR : Nat, ∀ blk : Bool,
       ((mtInit 3 true 100 400).jobs (mtInit 3 true 100 400).doneJobID).cErr = none →
       (ZSTDMT_flushProduced (mtInit 3 true 100 400) outR blk).1.doneJobID
         = (mtInit 3 true 100 400).doneJobID
             + (if flushRetiresJob (mtInit 3 true 100 400) outR then 1 else 0))
  ∧ (∀ i j : Nat, (mtInit 3 true 100 400).doneJobID ≤ i → i < j →
       j < (mtInit 3 true 100 400).nextJobID →
       i % ((mtInit 3 true 100 400).jobIDMask + 1) ≠ j % ((mtInit 3 true 100 400).jobIDMask + 1)) :=
  ring_never_overwritten 3 true 100 400 (mtInit 3 true 100 400) Relation.ReflTransGen.refl
